import Mathlib

/-!
Verification of the stateful monitoring core of `responsible-ai-demo`:
drift detection (`app/drift_detector.py`), alert management (`app/alerts.py`)
and feedback-driven threshold adaptation (`app/feedback.py`).

Python floats are modelled as exact rationals (`ℚ`); the sentence-transformer
embedding model and sklearn's `cosine_similarity` are external float-valued
collaborators and are abstracted as function parameters.  Timestamps and the
human-readable `message` strings of alerts/results are omitted (wall-clock
time and float formatting).  I/O side effects (console, file, Slack, email,
JSON persistence) are modelled as pure state components where a claim needs
them (alert history, feedback log, thresholds file) and dropped otherwise.
-/

/-! ## Bounded FIFO buffers (`collections.deque(maxlen=C)`) -/

/-- One `deque.append` on a deque with `maxlen`: the new element goes to the
right and, if the capacity is exceeded, the oldest (leftmost) element is
evicted. -/
def dequeAppend {α : Type} (maxlen : Nat) (xs : List α) (x : α) : List α :=
  let ys := xs ++ [x]
  if maxlen < ys.length then ys.drop (ys.length - maxlen) else ys

/-- Appending a whole sequence of items one by one. -/
def dequeExtend {α : Type} (maxlen : Nat) (xs : List α) (items : List α) : List α :=
  items.foldl (dequeAppend maxlen) xs

/-- The last `n` elements of a list (Python's `l[-n:]`). -/
def lastN {α : Type} (n : Nat) (l : List α) : List α :=
  l.drop (l.length - n)

/-- Capacity of the embedding rolling windows (`deque(maxlen=100)`). -/
def embeddings_maxlen : Nat := 100

/-- Capacity of the quality-score rolling window (`deque(maxlen=100)`). -/
def quality_scores_maxlen : Nat := 100

/-- Capacity of the alert history (`deque(maxlen=100)`). -/
def alert_history_maxlen : Nat := 100

/-- Capacity of the feedback history (`deque(maxlen=500)`). -/
def feedback_history_maxlen : Nat := 500

theorem lastN_of_length_le {α : Type} {n : Nat} {l : List α}
    (h : l.length ≤ n) : lastN n l = l := by
  simp [lastN, Nat.sub_eq_zero_of_le h]

theorem length_lastN {α : Type} (n : Nat) (l : List α) :
    (lastN n l).length = min n l.length := by
  simp [lastN]
  omega

theorem dequeAppend_eq_lastN {α : Type} (maxlen : Nat) (xs : List α) (x : α) :
    dequeAppend maxlen xs x = lastN maxlen (xs ++ [x]) := by
  simp only [dequeAppend, lastN]
  split
  · rfl
  · rename_i h
    rw [Nat.sub_eq_zero_of_le (by omega), List.drop_zero]

theorem length_dequeAppend {α : Type} (maxlen : Nat) (xs : List α) (x : α) :
    (dequeAppend maxlen xs x).length = min (xs.length + 1) maxlen := by
  rw [dequeAppend_eq_lastN, length_lastN]
  simp [Nat.min_comm]

theorem lastN_append_of_le {α : Type} {n : Nat} (p q : List α)
    (h : n ≤ q.length) : lastN n (p ++ q) = lastN n q := by
  simp only [lastN, List.length_append]
  have hdrop : p.length + q.length - n = p.length + (q.length - n) := by omega
  rw [hdrop, List.drop_append]

theorem lastN_lastN_append {α : Type} (n : Nat) (l m : List α) :
    lastN n (lastN n l ++ m) = lastN n (l ++ m) := by
  by_cases h : l.length ≤ n
  · rw [lastN_of_length_le h]
  · have hn : n ≤ l.length := Nat.le_of_lt (Nat.lt_of_not_le h)
    have hlen : n ≤ (lastN n l ++ m).length := by
      rw [List.length_append, length_lastN]
      omega
    calc lastN n (lastN n l ++ m)
        = lastN n (l.take (l.length - n) ++ (lastN n l ++ m)) := by
          rw [lastN_append_of_le _ _ hlen]
      _ = lastN n (l ++ m) := by
          rw [← List.append_assoc]
          simp only [lastN]
          rw [List.take_append_drop]

theorem dequeExtend_eq_lastN {α : Type} (maxlen : Nat) (xs items : List α)
    (h : xs.length ≤ maxlen) :
    dequeExtend maxlen xs items = lastN maxlen (xs ++ items) := by
  induction items generalizing xs with
  | nil => simp [dequeExtend, lastN_of_length_le h]
  | cons y items ih =>
    have hlen : (dequeAppend maxlen xs y).length ≤ maxlen := by
      rw [length_dequeAppend]; omega
    calc dequeExtend maxlen xs (y :: items)
        = dequeExtend maxlen (dequeAppend maxlen xs y) items := rfl
      _ = lastN maxlen (dequeAppend maxlen xs y ++ items) := ih _ hlen
      _ = lastN maxlen (lastN maxlen (xs ++ [y]) ++ items) := by
          rw [dequeAppend_eq_lastN]
      _ = lastN maxlen ((xs ++ [y]) ++ items) := lastN_lastN_append _ _ _
      _ = lastN maxlen (xs ++ y :: items) := by
          rw [List.append_assoc]; rfl

theorem dequeExtend_nil_of_overflow {α : Type} {maxlen : Nat} {items : List α}
    (h : maxlen < items.length) :
    dequeExtend maxlen [] items = items.drop (items.length - maxlen) ∧
      (dequeExtend maxlen [] items).length = maxlen := by
  have h1 : dequeExtend maxlen [] items = lastN maxlen items := by
    rw [dequeExtend_eq_lastN maxlen [] items (by simp)]
    rfl
  refine ⟨h1, ?_⟩
  rw [h1, length_lastN]
  omega

/-! ## Drift detector (`app/drift_detector.py`, class `DriftDetector`) -/

/-- The baseline document (`self.baseline`): optional response centroid and
optional input centroid.  Embedding vectors are lists of rationals. -/
structure Baseline where
  baseline_embedding : Option (List ℚ)
  input_baseline_embedding : Option (List ℚ)
deriving DecidableEq

/-- The thresholds document loaded by `_load_thresholds` (defaults shown in
`default_drift_thresholds`). -/
structure DriftThresholds where
  drift_threshold : ℚ
  quality_threshold : ℚ
  embedding_distance_threshold : ℚ
deriving DecidableEq

/-- Default thresholds when no thresholds file exists. -/
def default_drift_thresholds : DriftThresholds :=
  { drift_threshold := 0.3
    quality_threshold := 0.6
    embedding_distance_threshold := 0.4 }

/-- A result dictionary returned by the three detectors (and stored in the
drift history).  The Python dicts are heterogeneous, so every key that can
appear is an optional field; `timestamp` is omitted. -/
structure DriftRecord where
  drift_detected : Bool
  type : Option String
  reason : Option String
  distance : Option ℚ
  recent_average : Option ℚ
  overall_average : Option ℚ
  threshold : Option ℚ
  sample_count : Option Nat
deriving DecidableEq

/-- The mutable state of `DriftDetector`: baseline, thresholds, the three
rolling windows, the three sticky drift flags (the `self.drift_detected`
dict), and the unbounded drift-event history. -/
structure DriftDetectorState where
  baseline : Baseline
  thresholds : DriftThresholds
  response_embeddings : List (List ℚ)
  input_embeddings : List (List ℚ)
  quality_scores : List ℚ
  response_drift_flag : Bool
  data_drift_flag : Bool
  quality_drift_flag : Bool
  drift_history : List DriftRecord
deriving DecidableEq

/-- Python truthiness of `self.baseline.get(key)` for an optional embedding
vector: falsy when missing and when the stored list is empty. -/
def optListTruthy (o : Option (List ℚ)) : Bool :=
  match o with
  | none => false
  | some l => !l.isEmpty

/-- Mean of a list of rationals (`np.mean`); division is ℚ's total division. -/
def mean (l : List ℚ) : ℚ := l.sum / l.length

section DriftDetectorOps

/- `encode` stands for the loaded sentence-transformer model
(`embedding_model.encode` on a single text) and `cosine_similarity` for
sklearn's cosine similarity of two vectors; both are external float-valued
collaborators, abstracted as parameters. -/
variable (encode : String → List ℚ)
variable (cosine_similarity : List ℚ → List ℚ → ℚ)

/-- `detect_response_drift`: guard on a truthy response baseline, append the
embedding to the rolling window, compare the cosine distance to
`embedding_distance_threshold`, and record the event in the history only
when drift is detected (which also sets the sticky flag).  The
embedding-model-unavailable early return is not modelled since `encode`
is a given total function. -/
def detect_response_drift (s : DriftDetectorState) (response_text : String) :
    DriftRecord × DriftDetectorState :=
  if !optListTruthy s.baseline.baseline_embedding then
    ({ drift_detected := false, type := none, reason := some "No baseline set",
       distance := none, recent_average := none, overall_average := none,
       threshold := none, sample_count := none }, s)
  else
    let current_embedding := encode response_text
    let s1 := { s with response_embeddings :=
                  dequeAppend embeddings_maxlen s.response_embeddings current_embedding }
    let baseline_emb := s.baseline.baseline_embedding.getD []
    let distance := 1 - cosine_similarity current_embedding baseline_emb
    let threshold := s.thresholds.embedding_distance_threshold
    let drift_detected : Bool := decide (threshold < distance)
    let result : DriftRecord :=
      { drift_detected := drift_detected, type := some "response_drift",
        reason := none, distance := some distance, recent_average := none,
        overall_average := none, threshold := some threshold,
        sample_count := none }
    if drift_detected then
      (result, { s1 with response_drift_flag := true,
                         drift_history := s1.drift_history ++ [result] })
    else
      (result, s1)

/-- `detect_data_drift`: symmetric to response drift, against the input
baseline and `drift_threshold`. -/
def detect_data_drift (s : DriftDetectorState) (input_text : String) :
    DriftRecord × DriftDetectorState :=
  if !optListTruthy s.baseline.input_baseline_embedding then
    ({ drift_detected := false, type := none, reason := some "No input baseline set",
       distance := none, recent_average := none, overall_average := none,
       threshold := none, sample_count := none }, s)
  else
    let current_embedding := encode input_text
    let s1 := { s with input_embeddings :=
                  dequeAppend embeddings_maxlen s.input_embeddings current_embedding }
    let baseline_emb := s.baseline.input_baseline_embedding.getD []
    let distance := 1 - cosine_similarity current_embedding baseline_emb
    let threshold := s.thresholds.drift_threshold
    let drift_detected : Bool := decide (threshold < distance)
    let result : DriftRecord :=
      { drift_detected := drift_detected, type := some "data_drift",
        reason := none, distance := some distance, recent_average := none,
        overall_average := none, threshold := some threshold,
        sample_count := none }
    if drift_detected then
      (result, { s1 with data_drift_flag := true,
                         drift_history := s1.drift_history ++ [result] })
    else
      (result, s1)

end DriftDetectorOps

/-- `detect_quality_drift` on a present quality score (the `quality_score is
None` guard is handled at call sites by only calling with a score): append to
the bounded window, report `Insufficient samples` below 10 retained samples,
otherwise compare the mean of the last 10 scores against the quality
threshold and against 0.8 of the overall mean; record the event in the
history only when drift is detected (which also sets the sticky flag). -/
def detect_quality_drift (s : DriftDetectorState) (quality_score : ℚ) :
    DriftRecord × DriftDetectorState :=
  let qs := dequeAppend quality_scores_maxlen s.quality_scores quality_score
  let s1 := { s with quality_scores := qs }
  if qs.length < 10 then
    ({ drift_detected := false, type := none, reason := some "Insufficient samples",
       distance := none, recent_average := none, overall_average := none,
       threshold := none, sample_count := some qs.length }, s1)
  else
    let recent_avg := mean (lastN 10 qs)
    let overall_avg := mean qs
    let threshold := s.thresholds.quality_threshold
    let drift_detected : Bool :=
      decide (recent_avg < threshold) || decide (recent_avg < overall_avg * 0.8)
    let result : DriftRecord :=
      { drift_detected := drift_detected, type := some "quality_drift",
        reason := none, distance := none, recent_average := some recent_avg,
        overall_average := some overall_avg, threshold := some threshold,
        sample_count := none }
    if drift_detected then
      (result, { s1 with quality_drift_flag := true,
                         drift_history := s1.drift_history ++ [result] })
    else
      (result, s1)

/-- `reset_drift_state`: clear the three sticky flags, touch nothing else. -/
def reset_drift_state (s : DriftDetectorState) : DriftDetectorState :=
  { s with response_drift_flag := false,
           data_drift_flag := false,
           quality_drift_flag := false }

/-- `get_drift_history(limit)`: the last `limit` drift events. -/
def get_drift_history (s : DriftDetectorState) (limit : Nat) : List DriftRecord :=
  lastN limit s.drift_history

/-! ## Alert manager (`app/alerts.py`, class `AlertManager`) -/

/-- The `self.alert_thresholds` dict of `AlertManager.__init__`; floats and
the structural integer `consecutive_failures` get separate fields. -/
structure AlertThresholds where
  relevance_threshold : ℚ
  quality_threshold : ℚ
  drift_threshold : ℚ
  consecutive_failures : Nat
  toxicity_threshold : ℚ
  hallucination_threshold : ℚ
deriving DecidableEq

/-- The default alert thresholds (the environment-variable defaults of
`AlertManager.__init__`). -/
def default_alert_thresholds : AlertThresholds :=
  { relevance_threshold := 0.7
    quality_threshold := 0.6
    drift_threshold := 0.3
    consecutive_failures := 10
    toxicity_threshold := 0.3
    hallucination_threshold := 0.4 }

/-- An alert produced by `check_quality_alert` (timestamp and the formatted
`message` string omitted; `consecutive_failures` present only on the
relevance alert). -/
structure Alert where
  type : String
  severity : String
  metric : String
  value : ℚ
  threshold : ℚ
  consecutive_failures : Option Nat
deriving DecidableEq

/-- The mutable state of `AlertManager`: the bounded alert history, the
per-metric consecutive-failure counters, and the thresholds. -/
structure AlertManagerState where
  alert_history : List Alert
  consecutive_relevance : Nat
  consecutive_coherence : Nat
  consecutive_quality : Nat
  alert_thresholds : AlertThresholds
deriving DecidableEq

/-- The evaluation payload consumed by `check_quality_alert`
(`evaluations_available`, `scores.get("relevance")`, `overall_quality`). -/
structure Evaluation where
  evaluations_available : Bool
  relevance : Option ℚ
  overall_quality : Option ℚ
deriving DecidableEq

/-- `_send_alert`: append to the bounded alert history; the console, file,
Slack and email channels are I/O side effects outside the state model. -/
def send_alert (s : AlertManagerState) (alert : Alert) : AlertManagerState :=
  { s with alert_history := dequeAppend alert_history_maxlen s.alert_history alert }

/-- `check_quality_alert`: no-op without `evaluations_available`; otherwise
update the relevance consecutive-failure counter (increment below threshold,
reset to 0 at or above), set `alert` to the high-severity relevance alert
when the counter has reached `consecutive_failures`, then overwrite `alert`
with the medium-severity overall-quality alert when `overall_quality` is
below `quality_threshold` (the Python local `alert` is a single variable, so
the last assignment wins), and finally dispatch the ending value of `alert`
if any. -/
def check_quality_alert (s : AlertManagerState) (evaluation : Evaluation) :
    Option Alert × AlertManagerState :=
  if !evaluation.evaluations_available then
    (none, s)
  else
    let relCheck : Nat × Option Alert :=
      match evaluation.relevance with
      | none => (s.consecutive_relevance, none)
      | some relevance =>
        let cnt : Nat :=
          if relevance < s.alert_thresholds.relevance_threshold then
            s.consecutive_relevance + 1
          else 0
        if s.alert_thresholds.consecutive_failures ≤ cnt then
          (cnt, some { type := "quality_degradation", severity := "high",
                       metric := "relevance", value := relevance,
                       threshold := s.alert_thresholds.relevance_threshold,
                       consecutive_failures := some cnt })
        else (cnt, none)
    let alert : Option Alert :=
      match evaluation.overall_quality with
      | some overall_quality =>
        if overall_quality < s.alert_thresholds.quality_threshold then
          some { type := "quality_degradation", severity := "medium",
                 metric := "overall_quality", value := overall_quality,
                 threshold := s.alert_thresholds.quality_threshold,
                 consecutive_failures := none }
        else relCheck.2
      | none => relCheck.2
    let s1 := { s with consecutive_relevance := relCheck.1 }
    match alert with
    | some a => (some a, send_alert s1 a)
    | none => (none, s1)

/-- `get_alert_history(limit)`: the last `limit` alerts. -/
def get_alert_history (s : AlertManagerState) (limit : Nat) : List Alert :=
  lastN limit s.alert_history

/-! ## Feedback processor (`app/feedback.py`, class `FeedbackProcessor`) -/

/-- The keys of the thresholds JSON document that feedback can adapt. -/
inductive ThresholdKey
  | quality_threshold
  | relevance_threshold
  | coherence_threshold
deriving DecidableEq

/-- The thresholds JSON document as seen by `_update_thresholds`; a `none`
field models an absent key (the `threshold_key in thresholds` check). -/
structure ThresholdsFile where
  quality_threshold : Option ℚ
  relevance_threshold : Option ℚ
  coherence_threshold : Option ℚ
deriving DecidableEq

/-- Read a key from the thresholds document. -/
def getThreshold (t : ThresholdsFile) : ThresholdKey → Option ℚ
  | .quality_threshold => t.quality_threshold
  | .relevance_threshold => t.relevance_threshold
  | .coherence_threshold => t.coherence_threshold

/-- Write a key of the thresholds document. -/
def setThreshold (t : ThresholdsFile) : ThresholdKey → ℚ → ThresholdsFile
  | .quality_threshold, v => { t with quality_threshold := some v }
  | .relevance_threshold, v => { t with relevance_threshold := some v }
  | .coherence_threshold, v => { t with coherence_threshold := some v }

/-- The `threshold_map` dict of `_update_thresholds`. -/
def threshold_map (feedback_type : String) : Option ThresholdKey :=
  if feedback_type = "quality" then some .quality_threshold
  else if feedback_type = "relevance" then some .relevance_threshold
  else if feedback_type = "coherence" then some .coherence_threshold
  else none

/-- Python's `round(x, 3)` on an exact rational: round to the nearest
multiple of 1/1000 (Python rounds float ties to even; on exact inputs away
from ties the two agree, and no property proved here depends on the tie
rule). -/
def round3 (q : ℚ) : ℚ := (round (q * 1000) : ℤ) / 1000

/-- The per-value core of `_update_thresholds`: clamp the scaled value to
`[0.3, 0.95]` and keep the old value unless the change exceeds 0.001; a
write stores the value rounded to 3 decimals. -/
def adjust_value (adjustment old_value : ℚ) : ℚ :=
  let new_value := max 0.3 (min 0.95 (old_value * adjustment))
  if 0.001 < |new_value - old_value| then round3 new_value else old_value

/-- `_update_thresholds` as a pure function of the thresholds document (the
document is the durable store, loaded and rewritten by the Python code; the
missing-file early return is the identity): rating ≤ 2 scales the mapped
threshold by 0.95, rating ≥ 4 by 1.02, rating 3 is a no-op, unmapped
feedback types and absent keys are no-ops. -/
def update_thresholds (rating : Int) (feedback_type : String)
    (thresholds : ThresholdsFile) : ThresholdsFile :=
  let adjustment : Option ℚ :=
    if rating ≤ 2 then some 0.95
    else if 4 ≤ rating then some 1.02
    else none
  match adjustment, threshold_map feedback_type with
  | some adj, some key =>
    match getThreshold thresholds key with
    | some old_value => setThreshold thresholds key (adjust_value adj old_value)
    | none => thresholds
  | _, _ => thresholds

/-- The `metadata` dict of a feedback record, restricted to the keys the
code branches on (`input`, `output`); `metadata or {}` is the record with
both fields absent. -/
structure FeedbackMetadata where
  input : Option String
  output : Option String
deriving DecidableEq

/-- A feedback record as built by `submit_feedback` (timestamp omitted). -/
structure FeedbackRecord where
  session_id : String
  feedback_type : String
  rating : Option Int
  comment : Option String
  metadata : FeedbackMetadata
deriving DecidableEq

/-- A reference-dataset entry (timestamp omitted). -/
structure ReferenceExample where
  input : String
  output : String
  rating : Option Int
deriving DecidableEq

/-- The mutable state of `FeedbackProcessor`, together with its two durable
collaborators: the append-only feedback log file and the thresholds
document. -/
structure FeedbackProcessorState where
  feedback_history : List FeedbackRecord
  reference_dataset : List ReferenceExample
  feedback_log : List FeedbackRecord
  thresholds_file : ThresholdsFile
deriving DecidableEq

/-- `_add_to_reference_dataset`: only when the metadata carries both an
input and an output, append the example and keep the most recent 100. -/
def add_to_reference_dataset (s : FeedbackProcessorState)
    (feedback : FeedbackRecord) : FeedbackProcessorState :=
  match feedback.metadata.input, feedback.metadata.output with
  | some inp, some outp =>
    let reference : ReferenceExample :=
      { input := inp, output := outp, rating := feedback.rating }
    let ds := s.reference_dataset ++ [reference]
    let ds := if 100 < ds.length then lastN 100 ds else ds
    { s with reference_dataset := ds }
  | _, _ => s

/-- `_process_feedback`: adapt thresholds when a rating is present, then
curate the reference set when `feedback.get("rating", 0) >= 4`. -/
def process_feedback (s : FeedbackProcessorState) (feedback : FeedbackRecord) :
    FeedbackProcessorState :=
  let s1 :=
    match feedback.rating with
    | some r => { s with thresholds_file :=
                    update_thresholds r feedback.feedback_type s.thresholds_file }
    | none => s
  if 4 ≤ feedback.rating.getD 0 then add_to_reference_dataset s1 feedback else s1

/-- `submit_feedback`: build the record, append it to the bounded in-memory
history and to the durable log, then process it for improvements; returns
the record. -/
def submit_feedback (s : FeedbackProcessorState) (session_id feedback_type : String)
    (rating : Option Int) (comment : Option String) (metadata : FeedbackMetadata) :
    FeedbackRecord × FeedbackProcessorState :=
  let feedback : FeedbackRecord :=
    { session_id := session_id, feedback_type := feedback_type,
      rating := rating, comment := comment, metadata := metadata }
  let s1 := { s with feedback_history :=
                dequeAppend feedback_history_maxlen s.feedback_history feedback }
  let s2 := { s1 with feedback_log := s1.feedback_log ++ [feedback] }
  (feedback, process_feedback s2 feedback)

/-! ## Claim theorems -/

/-- A concrete drift-detector state used to instantiate hypotheses: both
baselines set, default thresholds, ten retained quality scores of 0.9. -/
def sampleDriftState : DriftDetectorState :=
  { baseline := { baseline_embedding := some [1, 0],
                  input_baseline_embedding := some [0, 1] }
    thresholds := default_drift_thresholds
    response_embeddings := []
    input_embeddings := []
    quality_scores := [9/10, 9/10, 9/10, 9/10, 9/10, 9/10, 9/10, 9/10, 9/10, 9/10]
    response_drift_flag := false
    data_drift_flag := false
    quality_drift_flag := false
    drift_history := [] }

/-- C4: every bounded FIFO collection keeps its capacity invariant: at the
two capacities used by the code — 100 for the response-embedding,
input-embedding and quality-score windows and for the alert history, 500
for the feedback history — inserting N > C items into an empty buffer
leaves exactly the last C inserted items, in insertion order, the oldest
having been evicted. -/
theorem bounded_fifo_capacity {α : Type} (items : List α)
    (h100 : embeddings_maxlen < items.length)
    (h500 : feedback_history_maxlen < items.length) :
    (dequeExtend embeddings_maxlen [] items =
        items.drop (items.length - embeddings_maxlen) ∧
      (dequeExtend embeddings_maxlen [] items).length = embeddings_maxlen) ∧
    (dequeExtend feedback_history_maxlen [] items =
        items.drop (items.length - feedback_history_maxlen) ∧
      (dequeExtend feedback_history_maxlen [] items).length =
        feedback_history_maxlen) ∧
    quality_scores_maxlen = embeddings_maxlen ∧
    alert_history_maxlen = embeddings_maxlen :=
  ⟨dequeExtend_nil_of_overflow h100, dequeExtend_nil_of_overflow h500, rfl, rfl⟩

/-- Witness for C4 at 501 inserted items. -/
theorem bounded_fifo_capacity_witness :
    (dequeExtend feedback_history_maxlen [] (List.range 501)).length =
      feedback_history_maxlen :=
  (bounded_fifo_capacity (List.range 501)
    (by simp [embeddings_maxlen])
    (by simp [feedback_history_maxlen])).2.1.2

/-- C8: `reset_drift_state` clears exactly the three sticky drift flags;
the rolling windows, the drift history, the baseline and the thresholds
are unchanged. -/
theorem reset_drift_state_frame (s : DriftDetectorState) :
    (reset_drift_state s).response_drift_flag = false ∧
    (reset_drift_state s).data_drift_flag = false ∧
    (reset_drift_state s).quality_drift_flag = false ∧
    (reset_drift_state s).response_embeddings = s.response_embeddings ∧
    (reset_drift_state s).input_embeddings = s.input_embeddings ∧
    (reset_drift_state s).quality_scores = s.quality_scores ∧
    (reset_drift_state s).drift_history = s.drift_history ∧
    (reset_drift_state s).baseline = s.baseline ∧
    (reset_drift_state s).thresholds = s.thresholds := by
  simp [reset_drift_state]

/-- C7: with fewer than 10 retained quality samples after appending the new
score, `detect_quality_drift` reports `Insufficient samples` and makes no
drift determination; from 9 previously retained scores onward, the next call
does make a determination (no reason, both averages computed). -/
theorem detect_quality_drift_insufficient (s : DriftDetectorState) (score : ℚ) :
    (s.quality_scores.length + 1 < 10 →
      (detect_quality_drift s score).1 =
        { drift_detected := false, type := none,
          reason := some "Insufficient samples", distance := none,
          recent_average := none, overall_average := none, threshold := none,
          sample_count := some (s.quality_scores.length + 1) }) ∧
    (9 ≤ s.quality_scores.length →
      (detect_quality_drift s score).1.reason = none ∧
      (detect_quality_drift s score).1.recent_average.isSome = true ∧
      (detect_quality_drift s score).1.overall_average.isSome = true) := by
  have hlen : (dequeAppend quality_scores_maxlen s.quality_scores score).length =
      min (s.quality_scores.length + 1) quality_scores_maxlen :=
    length_dequeAppend _ _ _
  constructor
  · intro h
    have hlt : (dequeAppend quality_scores_maxlen s.quality_scores score).length < 10 := by
      rw [hlen]; simp only [quality_scores_maxlen]; omega
    have hcnt : (dequeAppend quality_scores_maxlen s.quality_scores score).length =
        s.quality_scores.length + 1 := by
      rw [hlen]; simp only [quality_scores_maxlen]; omega
    simp [detect_quality_drift, hlt, hcnt, h]
  · intro h
    have hge : ¬ (dequeAppend quality_scores_maxlen s.quality_scores score).length < 10 := by
      rw [hlen]; simp only [quality_scores_maxlen]; omega
    simp only [detect_quality_drift, hge, if_false]
    split <;> simp

/-- Witness for C7 (empty window for the first part, the 10-sample state for
the second). -/
theorem detect_quality_drift_insufficient_witness :
    ((reset_drift_state sampleDriftState).quality_scores.length + 1 < 10 →
      (detect_quality_drift (reset_drift_state sampleDriftState) (9/10)).1 =
        { drift_detected := false, type := none,
          reason := some "Insufficient samples", distance := none,
          recent_average := none, overall_average := none, threshold := none,
          sample_count :=
            some ((reset_drift_state sampleDriftState).quality_scores.length + 1) }) ∧
    (9 ≤ (reset_drift_state sampleDriftState).quality_scores.length →
      (detect_quality_drift (reset_drift_state sampleDriftState) (9/10)).1.reason = none ∧
      (detect_quality_drift (reset_drift_state sampleDriftState)
          (9/10)).1.recent_average.isSome = true ∧
      (detect_quality_drift (reset_drift_state sampleDriftState)
          (9/10)).1.overall_average.isSome = true) :=
  detect_quality_drift_insufficient (reset_drift_state sampleDriftState) (9/10)

/-- C1: past the 10-sample guard, `detect_quality_drift` appends the score
to the bounded quality window, and detects drift exactly when the mean of
the last 10 retained scores (including the new one) is below the quality
threshold or below 0.8 of the mean of all retained scores. -/
theorem detect_quality_drift_determination (s : DriftDetectorState) (score : ℚ)
    (h : 10 ≤ s.quality_scores.length) :
    (detect_quality_drift s score).2.quality_scores =
      dequeAppend quality_scores_maxlen s.quality_scores score ∧
    ((detect_quality_drift s score).1.drift_detected = true ↔
      mean (lastN 10 (dequeAppend quality_scores_maxlen s.quality_scores score)) <
          s.thresholds.quality_threshold ∨
        mean (lastN 10 (dequeAppend quality_scores_maxlen s.quality_scores score)) <
          0.8 * mean (dequeAppend quality_scores_maxlen s.quality_scores score)) := by
  have hlen : (dequeAppend quality_scores_maxlen s.quality_scores score).length =
      min (s.quality_scores.length + 1) quality_scores_maxlen :=
    length_dequeAppend _ _ _
  have hge : ¬ (dequeAppend quality_scores_maxlen s.quality_scores score).length < 10 := by
    rw [hlen]; simp only [quality_scores_maxlen]; omega
  simp only [detect_quality_drift, hge, if_false]
  constructor
  · split <;> rfl
  · split <;>
      simp_all [Bool.or_eq_true, decide_eq_true_iff, mul_comm]

/-- Witness for C1 at the 10-sample state. -/
theorem detect_quality_drift_determination_witness :
    (detect_quality_drift sampleDriftState (9/10)).2.quality_scores =
      dequeAppend quality_scores_maxlen sampleDriftState.quality_scores (9/10) ∧
    ((detect_quality_drift sampleDriftState (9/10)).1.drift_detected = true ↔
      mean (lastN 10 (dequeAppend quality_scores_maxlen
          sampleDriftState.quality_scores (9/10))) <
          sampleDriftState.thresholds.quality_threshold ∨
        mean (lastN 10 (dequeAppend quality_scores_maxlen
          sampleDriftState.quality_scores (9/10))) <
          0.8 * mean (dequeAppend quality_scores_maxlen
            sampleDriftState.quality_scores (9/10))) :=
  detect_quality_drift_determination sampleDriftState (9/10) (by decide)

/-- C6 counterexample: a determination call (reason absent, so past the
guard) on which no drift is detected leaves the drift history empty — the
event record is not appended on every detection call. -/
theorem drift_event_not_always_appended :
    (detect_quality_drift sampleDriftState (9/10)).1.reason = none ∧
    (detect_quality_drift sampleDriftState (9/10)).1.drift_detected = false ∧
    (detect_quality_drift sampleDriftState (9/10)).2.drift_history = [] := by
  norm_num [detect_quality_drift, sampleDriftState, dequeAppend, lastN, mean,
    default_drift_thresholds, quality_scores_maxlen]

/-- C6 (amended): once past their guard conditions, the three detection
calls append their result record to the drift history exactly when drift is
detected (and never touch the existing entries, which are plain immutable
values); the history is read with a keep-last-N pattern. -/
theorem drift_history_appended_only_on_detection
    (encode : String → List ℚ) (cosine_similarity : List ℚ → List ℚ → ℚ)
    (s : DriftDetectorState) (response_text input_text : String) (score : ℚ)
    (hb : optListTruthy s.baseline.baseline_embedding = true)
    (hib : optListTruthy s.baseline.input_baseline_embedding = true)
    (hq : 9 ≤ s.quality_scores.length) :
    ((detect_response_drift encode cosine_similarity s response_text).2.drift_history =
      if (detect_response_drift encode cosine_similarity s response_text).1.drift_detected
        then s.drift_history ++
          [(detect_response_drift encode cosine_similarity s response_text).1]
        else s.drift_history) ∧
    ((detect_data_drift encode cosine_similarity s input_text).2.drift_history =
      if (detect_data_drift encode cosine_similarity s input_text).1.drift_detected
        then s.drift_history ++
          [(detect_data_drift encode cosine_similarity s input_text).1]
        else s.drift_history) ∧
    ((detect_quality_drift s score).2.drift_history =
      if (detect_quality_drift s score).1.drift_detected
        then s.drift_history ++ [(detect_quality_drift s score).1]
        else s.drift_history) ∧
    (∀ (s' : DriftDetectorState) (limit : Nat),
      get_drift_history s' limit = lastN limit s'.drift_history) := by
  refine ⟨?_, ?_, ?_, fun s' limit => rfl⟩
  · by_cases hc : s.thresholds.embedding_distance_threshold <
        1 - cosine_similarity (encode response_text) (s.baseline.baseline_embedding.getD [])
    all_goals simp [detect_response_drift, hb, hc]
  · by_cases hc : s.thresholds.drift_threshold <
        1 - cosine_similarity (encode input_text) (s.baseline.input_baseline_embedding.getD [])
    all_goals simp [detect_data_drift, hib, hc]
  · have hge : ¬ (dequeAppend quality_scores_maxlen s.quality_scores score).length < 10 := by
      rw [length_dequeAppend]; simp only [quality_scores_maxlen]; omega
    by_cases hc : mean (lastN 10 (dequeAppend quality_scores_maxlen s.quality_scores score)) <
          s.thresholds.quality_threshold ∨
        mean (lastN 10 (dequeAppend quality_scores_maxlen s.quality_scores score)) <
          mean (dequeAppend quality_scores_maxlen s.quality_scores score) * 0.8
    all_goals simp [detect_quality_drift, hge, hc]

/-- Witness for the amended C6 at a concrete model and state. -/
theorem drift_history_appended_only_on_detection_witness :
    (detect_quality_drift sampleDriftState (9/10)).2.drift_history =
      if (detect_quality_drift sampleDriftState (9/10)).1.drift_detected
        then sampleDriftState.drift_history ++
          [(detect_quality_drift sampleDriftState (9/10)).1]
        else sampleDriftState.drift_history :=
  (drift_history_appended_only_on_detection (fun _ => [1]) (fun _ _ => 0)
    sampleDriftState "a" "b" (9/10) (by decide) (by decide) (by decide)).2.2.1

/-- C2: on an available evaluation with a relevance score, the consecutive
relevance counter is incremented below the relevance threshold and reset to
0 at or above it, and any returned relevance alert is a high-severity
`quality_degradation` alert that requires the counter to have reached
`consecutive_failures` (default 10).  The reset rule gives the claim's
particular case: one at-or-above-threshold score zeroes the counter, so a
fresh sequence needs 10 new failures before a relevance alert can fire. -/
theorem check_quality_alert_relevance_rules (s : AlertManagerState)
    (evaluation : Evaluation) (r : ℚ)
    (hav : evaluation.evaluations_available = true)
    (hrel : evaluation.relevance = some r) :
    ((check_quality_alert s evaluation).2.consecutive_relevance =
      if r < s.alert_thresholds.relevance_threshold
        then s.consecutive_relevance + 1 else 0) ∧
    (∀ a, (check_quality_alert s evaluation).1 = some a → a.metric = "relevance" →
      a.type = "quality_degradation" ∧ a.severity = "high" ∧
      s.alert_thresholds.consecutive_failures ≤
        (check_quality_alert s evaluation).2.consecutive_relevance) ∧
    default_alert_thresholds.consecutive_failures = 10 := by
  obtain ⟨av, rel, oq⟩ := evaluation
  simp only [Evaluation.evaluations_available] at hav
  simp only [Evaluation.relevance] at hrel
  subst hav
  subst hrel
  refine ⟨?_, ?_, rfl⟩ <;>
    cases oq <;>
      simp only [check_quality_alert, send_alert] <;>
      split_ifs <;>
      simp_all

/-- A concrete alert-manager state: empty history, relevance counter already
at 10, default thresholds. -/
def sampleAlertState : AlertManagerState :=
  { alert_history := []
    consecutive_relevance := 10
    consecutive_coherence := 0
    consecutive_quality := 0
    alert_thresholds := default_alert_thresholds }

/-- Witness for C2 at a concrete state and evaluation. -/
theorem check_quality_alert_relevance_rules_witness :
    ((check_quality_alert sampleAlertState
        { evaluations_available := true, relevance := some 0.5,
          overall_quality := none }).2.consecutive_relevance =
      if (0.5 : ℚ) < sampleAlertState.alert_thresholds.relevance_threshold
        then sampleAlertState.consecutive_relevance + 1 else 0) ∧
    (∀ a, (check_quality_alert sampleAlertState
        { evaluations_available := true, relevance := some 0.5,
          overall_quality := none }).1 = some a → a.metric = "relevance" →
      a.type = "quality_degradation" ∧ a.severity = "high" ∧
      sampleAlertState.alert_thresholds.consecutive_failures ≤
        (check_quality_alert sampleAlertState
          { evaluations_available := true, relevance := some 0.5,
            overall_quality := none }).2.consecutive_relevance) ∧
    default_alert_thresholds.consecutive_failures = 10 :=
  check_quality_alert_relevance_rules sampleAlertState
    { evaluations_available := true, relevance := some 0.5,
      overall_quality := none } 0.5 rfl rfl

/-- C9 counterexample: with the relevance counter already at 10, a call whose
relevance score is sub-threshold but whose overall quality is also below the
quality threshold dispatches the medium-severity overall-quality alert — not
another high-severity relevance alert. -/
theorem high_alert_superseded_on_low_overall :
    (check_quality_alert sampleAlertState
        { evaluations_available := true, relevance := some 0.5,
          overall_quality := some 0.5 }).2.consecutive_relevance = 11 ∧
    (check_quality_alert sampleAlertState
        { evaluations_available := true, relevance := some 0.5,
          overall_quality := some 0.5 }).1 =
      some { type := "quality_degradation", severity := "medium",
             metric := "overall_quality", value := 0.5, threshold := 0.6,
             consecutive_failures := none } := by
  norm_num [check_quality_alert, send_alert, sampleAlertState,
    default_alert_thresholds, dequeAppend, alert_history_maxlen]

/-- C9 (amended): once the relevance counter has reached
`consecutive_failures`, every further call with a sub-threshold relevance
score increments the counter and dispatches an alert — the high-severity
relevance alert unless the low-overall-quality condition also fires in the
same call (then the dispatched alert is the medium overall-quality one) —
and an at-or-above-threshold relevance score resets the counter to 0. -/
theorem consecutive_counter_not_reset_on_alert (s : AlertManagerState)
    (evaluation : Evaluation) (r : ℚ)
    (hav : evaluation.evaluations_available = true)
    (hrel : evaluation.relevance = some r)
    (hcnt : s.alert_thresholds.consecutive_failures ≤ s.consecutive_relevance) :
    (r < s.alert_thresholds.relevance_threshold →
      (check_quality_alert s evaluation).2.consecutive_relevance =
        s.consecutive_relevance + 1 ∧
      (check_quality_alert s evaluation).1.isSome = true ∧
      (∀ a, (check_quality_alert s evaluation).1 = some a →
        (check_quality_alert s evaluation).2.alert_history =
          dequeAppend alert_history_maxlen s.alert_history a ∧
        ((∀ q, evaluation.overall_quality = some q →
            s.alert_thresholds.quality_threshold ≤ q) →
          a.severity = "high" ∧ a.metric = "relevance" ∧
          a.consecutive_failures = some (s.consecutive_relevance + 1)))) ∧
    (s.alert_thresholds.relevance_threshold ≤ r →
      (check_quality_alert s evaluation).2.consecutive_relevance = 0) := by
  obtain ⟨av, rel, oq⟩ := evaluation
  simp only [Evaluation.evaluations_available] at hav
  simp only [Evaluation.relevance] at hrel
  subst hav
  subst hrel
  have hcnt1 : s.alert_thresholds.consecutive_failures ≤ s.consecutive_relevance + 1 :=
    Nat.le_succ_of_le hcnt
  constructor
  · intro hr
    cases oq <;>
      simp only [check_quality_alert, send_alert] <;>
      split_ifs <;>
      simp_all
  · intro hr
    have hnr : ¬ r < s.alert_thresholds.relevance_threshold := not_lt.mpr hr
    cases oq <;>
      simp only [check_quality_alert, send_alert] <;>
      split_ifs <;>
      simp_all

/-- Witness for the amended C9 at a concrete state and evaluation. -/
theorem consecutive_counter_not_reset_on_alert_witness :
    (((0.5 : ℚ) < sampleAlertState.alert_thresholds.relevance_threshold →
      (check_quality_alert sampleAlertState
          { evaluations_available := true, relevance := some 0.5,
            overall_quality := none }).2.consecutive_relevance =
        sampleAlertState.consecutive_relevance + 1 ∧
      (check_quality_alert sampleAlertState
          { evaluations_available := true, relevance := some 0.5,
            overall_quality := none }).1.isSome = true ∧
      (∀ a, (check_quality_alert sampleAlertState
          { evaluations_available := true, relevance := some 0.5,
            overall_quality := none }).1 = some a →
        (check_quality_alert sampleAlertState
            { evaluations_available := true, relevance := some 0.5,
              overall_quality := none }).2.alert_history =
          dequeAppend alert_history_maxlen sampleAlertState.alert_history a ∧
        ((∀ q, ({ evaluations_available := true, relevance := some 0.5,
                  overall_quality := none } : Evaluation).overall_quality = some q →
            sampleAlertState.alert_thresholds.quality_threshold ≤ q) →
          a.severity = "high" ∧ a.metric = "relevance" ∧
          a.consecutive_failures = some (sampleAlertState.consecutive_relevance + 1)))) ∧
    (sampleAlertState.alert_thresholds.relevance_threshold ≤ (0.5 : ℚ) →
      (check_quality_alert sampleAlertState
          { evaluations_available := true, relevance := some 0.5,
            overall_quality := none }).2.consecutive_relevance = 0)) :=
  consecutive_counter_not_reset_on_alert sampleAlertState
    { evaluations_available := true, relevance := some 0.5,
      overall_quality := none } 0.5 rfl rfl (by norm_num [sampleAlertState,
        default_alert_thresholds])

/-- C5 counterexample: a call on which both the consecutive-relevance
condition and the low-overall-quality condition fire appends exactly one
alert to the alert history, and it is the medium-severity overall-quality
alert — the high-severity consecutive-failure alert is silently dropped. -/
theorem consecutive_failure_alert_dropped :
    (check_quality_alert sampleAlertState
        { evaluations_available := true, relevance := some 0.5,
          overall_quality := some 0.5 }).2.alert_history.length = 1 ∧
    (∀ a ∈ (check_quality_alert sampleAlertState
        { evaluations_available := true, relevance := some 0.5,
          overall_quality := some 0.5 }).2.alert_history,
      a.metric = "overall_quality" ∧ a.severity = "medium") := by
  norm_num [check_quality_alert, send_alert, sampleAlertState,
    default_alert_thresholds, dequeAppend, alert_history_maxlen]

/-- C5 (amended): when both the consecutive-relevance-failure condition and
the low-overall-quality condition fire in one call, the returned alert is
the most recently computed one — the medium-severity overall-quality alert —
and only this final alert is dispatched and appended to the alert history;
the high-severity consecutive-failure alert is silently dropped. -/
theorem last_write_wins_single_dispatch (s : AlertManagerState)
    (evaluation : Evaluation) (r q : ℚ)
    (hav : evaluation.evaluations_available = true)
    (hrel : evaluation.relevance = some r)
    (hr : r < s.alert_thresholds.relevance_threshold)
    (hcnt : s.alert_thresholds.consecutive_failures ≤ s.consecutive_relevance + 1)
    (hoq : evaluation.overall_quality = some q)
    (hq : q < s.alert_thresholds.quality_threshold) :
    (check_quality_alert s evaluation).1 =
      some { type := "quality_degradation", severity := "medium",
             metric := "overall_quality", value := q,
             threshold := s.alert_thresholds.quality_threshold,
             consecutive_failures := none } ∧
    (check_quality_alert s evaluation).2.alert_history =
      dequeAppend alert_history_maxlen s.alert_history
        { type := "quality_degradation", severity := "medium",
          metric := "overall_quality", value := q,
          threshold := s.alert_thresholds.quality_threshold,
          consecutive_failures := none } := by
  obtain ⟨av, rel, oq⟩ := evaluation
  simp only [Evaluation.evaluations_available] at hav
  simp only [Evaluation.relevance] at hrel
  simp only [Evaluation.overall_quality] at hoq
  subst hav
  subst hrel
  subst hoq
  simp only [check_quality_alert, send_alert]
  split_ifs <;> simp_all

/-- Witness for the amended C5 at a concrete state and evaluation. -/
theorem last_write_wins_single_dispatch_witness :
    (check_quality_alert sampleAlertState
        { evaluations_available := true, relevance := some 0.5,
          overall_quality := some 0.5 }).1 =
      some { type := "quality_degradation", severity := "medium",
             metric := "overall_quality", value := 0.5,
             threshold := sampleAlertState.alert_thresholds.quality_threshold,
             consecutive_failures := none } ∧
    (check_quality_alert sampleAlertState
        { evaluations_available := true, relevance := some 0.5,
          overall_quality := some 0.5 }).2.alert_history =
      dequeAppend alert_history_maxlen sampleAlertState.alert_history
        { type := "quality_degradation", severity := "medium",
          metric := "overall_quality", value := 0.5,
          threshold := sampleAlertState.alert_thresholds.quality_threshold,
          consecutive_failures := none } :=
  last_write_wins_single_dispatch sampleAlertState
    { evaluations_available := true, relevance := some 0.5,
      overall_quality := some 0.5 } 0.5 0.5 rfl rfl
    (by norm_num [sampleAlertState, default_alert_thresholds])
    (by norm_num [sampleAlertState, default_alert_thresholds])
    rfl
    (by norm_num [sampleAlertState, default_alert_thresholds])

theorem round3_le_round3 {x y : ℚ} (h : x ≤ y) : round3 x ≤ round3 y := by
  unfold round3
  have hr : round (x * 1000) ≤ round (y * 1000) := by
    rw [round_eq, round_eq]
    exact Int.floor_le_floor (by linarith)
  have : ((round (x * 1000) : ℤ) : ℚ) ≤ ((round (y * 1000) : ℤ) : ℚ) :=
    Int.cast_le.mpr hr
  exact div_le_div_of_nonneg_right this (by norm_num)

theorem round3_fixed (n : ℤ) : round3 ((n : ℚ) / 1000) = (n : ℚ) / 1000 := by
  unfold round3
  rw [div_mul_cancel₀ _ (by norm_num : (1000 : ℚ) ≠ 0), round_intCast]

theorem round3_mem_Icc {x : ℚ} (h1 : 0.3 ≤ x) (h2 : x ≤ 0.95) :
    0.3 ≤ round3 x ∧ round3 x ≤ 0.95 := by
  have e1 : round3 0.3 = 0.3 := by
    have e : (0.3 : ℚ) = ((300 : ℤ) : ℚ) / 1000 := by norm_num
    rw [e, round3_fixed]
  have e2 : round3 0.95 = 0.95 := by
    have e : (0.95 : ℚ) = ((950 : ℤ) : ℚ) / 1000 := by norm_num
    rw [e, round3_fixed]
  exact ⟨e1 ▸ round3_le_round3 h1, e2 ▸ round3_le_round3 h2⟩

theorem adjust_value_cases (adjustment old_value : ℚ) :
    adjust_value adjustment old_value = old_value ∨
      (0.3 ≤ adjust_value adjustment old_value ∧
        adjust_value adjustment old_value ≤ 0.95) := by
  simp only [adjust_value]
  split
  · right
    exact round3_mem_Icc (le_max_left _ _)
      (max_le (by norm_num) (min_le_left _ _))
  · left
    rfl

theorem adjust_value_mem_Icc {adjustment old_value : ℚ}
    (h1 : 0.3 ≤ old_value) (h2 : old_value ≤ 0.95) :
    0.3 ≤ adjust_value adjustment old_value ∧
      adjust_value adjustment old_value ≤ 0.95 := by
  rcases adjust_value_cases adjustment old_value with h | h
  · rw [h]; exact ⟨h1, h2⟩
  · exact h

theorem getThreshold_setThreshold (t : ThresholdsFile) (key : ThresholdKey) (v : ℚ) :
    getThreshold (setThreshold t key v) key = some v := by
  cases key <;> rfl

theorem update_thresholds_low {rating : Int} (feedback_type : String)
    {key : ThresholdKey} {t : ThresholdsFile} {v : ℚ}
    (h2 : rating ≤ 2) (hkey : threshold_map feedback_type = some key)
    (hv : getThreshold t key = some v) :
    getThreshold (update_thresholds rating feedback_type t) key =
      some (adjust_value 0.95 v) := by
  unfold update_thresholds
  rw [if_pos h2, hkey]
  simp only [hv]
  exact getThreshold_setThreshold t key _

theorem update_thresholds_high {rating : Int} (feedback_type : String)
    {key : ThresholdKey} {t : ThresholdsFile} {v : ℚ}
    (h4 : 4 ≤ rating) (hkey : threshold_map feedback_type = some key)
    (hv : getThreshold t key = some v) :
    getThreshold (update_thresholds rating feedback_type t) key =
      some (adjust_value 1.02 v) := by
  unfold update_thresholds
  rw [if_neg (by omega), if_pos h4, hkey]
  simp only [hv]
  exact getThreshold_setThreshold t key _

theorem update_thresholds_mid {rating : Int} (feedback_type : String)
    (t : ThresholdsFile) (hlo : 2 < rating) (hhi : rating < 4) :
    update_thresholds rating feedback_type t = t := by
  unfold update_thresholds
  rw [if_neg (by omega), if_neg (by omega)]

theorem update_thresholds_get {rating : Int} (feedback_type : String)
    {key : ThresholdKey} {t : ThresholdsFile} {v : ℚ}
    (hkey : threshold_map feedback_type = some key)
    (hv : getThreshold t key = some v) :
    getThreshold (update_thresholds rating feedback_type t) key = some v ∨
      (∃ adj, getThreshold (update_thresholds rating feedback_type t) key =
        some (adjust_value adj v)) := by
  by_cases h2 : rating ≤ 2
  · exact Or.inr ⟨0.95, update_thresholds_low feedback_type h2 hkey hv⟩
  · by_cases h4 : 4 ≤ rating
    · exact Or.inr ⟨1.02, update_thresholds_high feedback_type h4 hkey hv⟩
    · rw [update_thresholds_mid feedback_type t (by omega) (by omega)]
      exact Or.inl hv

/-- C3: threshold adaptation obeys the clamp invariant.  For a feedback
record with a present rating and a mapped feedback type: any value actually
written back (i.e. changed) lies in [0.3, 0.95]; starting from any in-range
value, any number of repeated adaptations — in particular repeated rating 1
or repeated rating 5 — keeps the mapped threshold inside [0.3, 0.95]; and
the update scales by 0.95 for rating ≤ 2, by 1.02 for rating ≥ 4, and is a
no-op for rating 3 (with clamping and the 0.001 significance test applied by
`adjust_value`). -/
theorem update_thresholds_clamp (rating : Int) (feedback_type : String)
    (key : ThresholdKey) (t : ThresholdsFile)
    (hkey : threshold_map feedback_type = some key) :
    (∀ v v', getThreshold t key = some v →
      getThreshold (update_thresholds rating feedback_type t) key = some v' →
      v' ≠ v → 0.3 ≤ v' ∧ v' ≤ 0.95) ∧
    (∀ v, getThreshold t key = some v → 0.3 ≤ v → v ≤ 0.95 →
      ∀ n, ∃ v'', getThreshold ((update_thresholds rating feedback_type)^[n] t) key =
        some v'' ∧ 0.3 ≤ v'' ∧ v'' ≤ 0.95) ∧
    (rating ≤ 2 → ∀ v, getThreshold t key = some v →
      getThreshold (update_thresholds rating feedback_type t) key =
        some (adjust_value 0.95 v)) ∧
    (4 ≤ rating → ∀ v, getThreshold t key = some v →
      getThreshold (update_thresholds rating feedback_type t) key =
        some (adjust_value 1.02 v)) ∧
    (rating = 3 → update_thresholds rating feedback_type t = t) := by
  refine ⟨?_, ?_, ?_, ?_, ?_⟩
  · intro v v' hv hv' hne
    rcases update_thresholds_get feedback_type hkey hv with h | ⟨adj, h⟩
    · rw [hv'] at h
      exact absurd (Option.some_injective _ h) hne
    · rw [hv'] at h
      obtain rfl : v' = adjust_value adj v := Option.some_injective _ h
      rcases adjust_value_cases adj v with he | hin
      · exact absurd he hne
      · exact hin
  · intro v hv h1 h2 n
    induction n with
    | zero => exact ⟨v, hv, h1, h2⟩
    | succ n ih =>
      obtain ⟨v'', hv'', hl, hr⟩ := ih
      rw [Function.iterate_succ_apply']
      rcases @update_thresholds_get rating feedback_type key _ v'' hkey hv'' with h | ⟨adj, h⟩
      · exact ⟨v'', h, hl, hr⟩
      · exact ⟨adjust_value adj v'', h, adjust_value_mem_Icc hl hr⟩
  · intro h2 v hv
    exact update_thresholds_low feedback_type h2 hkey hv
  · intro h4 v hv
    exact update_thresholds_high feedback_type h4 hkey hv
  · intro h3
    exact update_thresholds_mid feedback_type t (by omega) (by omega)

/-- A concrete thresholds document for witnesses. -/
def sampleThresholdsFile : ThresholdsFile :=
  { quality_threshold := some 0.6
    relevance_threshold := some 0.7
    coherence_threshold := none }

/-- Witness for C3: a rating-1 "quality" update scales the stored quality
threshold by 0.95 (clamped and rounded). -/
theorem update_thresholds_clamp_witness :
    getThreshold (update_thresholds 1 "quality" sampleThresholdsFile)
        ThresholdKey.quality_threshold = some (adjust_value 0.95 0.6) :=
  (update_thresholds_clamp 1 "quality" ThresholdKey.quality_threshold
      sampleThresholdsFile rfl).2.2.1 (by decide) 0.6 rfl

/-- C10: `submit_feedback` performs no range validation on the rating: any
integer rating is stored verbatim in the returned record, the bounded
history and the durable log; the thresholds document always undergoes the
rating-driven adaptation (so rating 0, being ≤ 2, scales by 0.95 and
rating 6, being ≥ 4, scales by 1.02, per `update_thresholds`); any rating
≥ 4 qualifies the record for reference-set curation, and a rating ≤ 3
leaves the reference set unchanged. -/
theorem submit_feedback_no_rating_validation (s : FeedbackProcessorState)
    (session_id feedback_type : String) (r : Int) (comment : Option String)
    (metadata : FeedbackMetadata) :
    (submit_feedback s session_id feedback_type (some r) comment metadata).1.rating =
      some r ∧
    (submit_feedback s session_id feedback_type (some r) comment metadata).2.feedback_history =
      dequeAppend feedback_history_maxlen s.feedback_history
        (submit_feedback s session_id feedback_type (some r) comment metadata).1 ∧
    (submit_feedback s session_id feedback_type (some r) comment metadata).2.feedback_log =
      s.feedback_log ++
        [(submit_feedback s session_id feedback_type (some r) comment metadata).1] ∧
    (submit_feedback s session_id feedback_type (some r) comment metadata).2.thresholds_file =
      update_thresholds r feedback_type s.thresholds_file ∧
    (4 ≤ r → ∀ inp outp, metadata.input = some inp → metadata.output = some outp →
      (submit_feedback s session_id feedback_type (some r) comment
          metadata).2.reference_dataset =
        (let ds := s.reference_dataset ++
            [{ input := inp, output := outp, rating := some r }]
         if 100 < ds.length then lastN 100 ds else ds)) ∧
    (r ≤ 3 →
      (submit_feedback s session_id feedback_type (some r) comment
          metadata).2.reference_dataset = s.reference_dataset) := by
  obtain ⟨mi, mo⟩ := metadata
  refine ⟨rfl, ?_, ?_, ?_, ?_, ?_⟩
  · simp only [submit_feedback, process_feedback, add_to_reference_dataset]
    split <;> (try split) <;> rfl
  · simp only [submit_feedback, process_feedback, add_to_reference_dataset]
    split <;> (try split) <;> rfl
  · simp only [submit_feedback, process_feedback, add_to_reference_dataset]
    split <;> (try split) <;> rfl
  · intro h4 inp outp hi ho
    simp only [FeedbackMetadata.input] at hi
    simp only [FeedbackMetadata.output] at ho
    subst hi
    subst ho
    simp [submit_feedback, process_feedback, add_to_reference_dataset, h4]
  · intro h3
    have hn4 : ¬ (4 : Int) ≤ r := by omega
    simp [submit_feedback, process_feedback, hn4]

/-- A concrete feedback-processor state for witnesses. -/
def sampleFeedbackState : FeedbackProcessorState :=
  { feedback_history := []
    reference_dataset := []
    feedback_log := []
    thresholds_file := sampleThresholdsFile }

/-- Witness for C10: the out-of-range rating 6 is stored verbatim and, being
≥ 4, curates the reference set. -/
theorem submit_feedback_no_rating_validation_witness :
    (submit_feedback sampleFeedbackState "s1" "quality" (some 6) none
        { input := some "hi", output := some "hello" }).1.rating = some 6 ∧
    (submit_feedback sampleFeedbackState "s1" "quality" (some 6) none
        { input := some "hi", output := some "hello" }).2.reference_dataset =
      (let ds := sampleFeedbackState.reference_dataset ++
          [{ input := "hi", output := "hello", rating := some 6 }]
       if 100 < ds.length then lastN 100 ds else ds) :=
  ⟨(submit_feedback_no_rating_validation sampleFeedbackState "s1" "quality" 6 none
      { input := some "hi", output := some "hello" }).1,
    (submit_feedback_no_rating_validation sampleFeedbackState "s1" "quality" 6 none
      { input := some "hi", output := some "hello" }).2.2.2.2.1
      (by omega) "hi" "hello" rfl rfl⟩
